import Mathlib

/-!
Shallow embedding of the Hospital Management System core (hospital_app.py and
app.py): the SQLite schema (tables, triggers, foreign-key actions, seed data)
and the operations that the web/CLI layers invoke, together with proofs of the
specified scheduling-consistency properties.
-/

/-- Appointment status, per the DDL CHECK constraint
`status IN ('Booked','Completed','Cancelled')`. -/
inductive Status where
  | Booked
  | Completed
  | Cancelled
deriving DecidableEq

/-- Row of the Patients table. Nullable columns are `Option`s. -/
structure Patient where
  patient_id : Nat
  full_name : String
  date_of_birth : Option String
  gender : Option String
  phone : Option String
  email : Option String
deriving DecidableEq

/-- Row of the Doctors table. -/
structure Doctor where
  doctor_id : Nat
  full_name : String
  specialization : String
deriving DecidableEq

/-- Row of the Rooms table. -/
structure Room where
  room_id : Nat
  room_number : String
  room_type : String
deriving DecidableEq

/-- Row of the Appointments table. `room_id` is nullable (`ON DELETE SET NULL`). -/
structure Appointment where
  appointment_id : Nat
  patient_id : Nat
  doctor_id : Nat
  room_id : Option Nat
  start_time : String
  end_time : Option String
  notes : String
  status : Status
deriving DecidableEq

/-- Row of the AuditLog table (`created_at` is wall-clock time, outside the model). -/
structure AuditEntry where
  log_id : Nat
  entity : String
  action : String
  details : String
deriving DecidableEq

/-- The database state: the five tables plus the AUTOINCREMENT sequence
(`sqlite_sequence`) value for each table, i.e. the largest rowid ever used. -/
structure DB where
  patients : List Patient
  doctors : List Doctor
  rooms : List Room
  appointments : List Appointment
  audit : List AuditEntry
  patientSeq : Nat
  doctorSeq : Nat
  roomSeq : Nat
  apptSeq : Nat
  logSeq : Nat
deriving DecidableEq

/-- A freshly created (empty) database. -/
def emptyDB : DB :=
  { patients := [], doctors := [], rooms := [], appointments := [], audit := [],
    patientSeq := 0, doctorSeq := 0, roomSeq := 0, apptSeq := 0, logSeq := 0 }

/-- WHEN clause of trigger `trg_no_double_book_doctor`: an existing appointment
with the same doctor_id and start_time whose status is not Cancelled. -/
def doctorConflict (db : DB) (did : Nat) (st : String) : Bool :=
  db.appointments.any fun a =>
    decide (a.doctor_id = did ∧ a.start_time = st ∧ a.status ≠ Status.Cancelled)

/-- WHEN clause of trigger `trg_no_double_book_room`: fires only when the new
room_id is not NULL and some non-Cancelled appointment occupies the same room
at the same start_time (SQL `a.room_id = NEW.room_id` is false on NULL rows). -/
def roomConflict (db : DB) (rid : Option Nat) (st : String) : Bool :=
  match rid with
  | none => false
  | some r => db.appointments.any fun a =>
      decide (a.room_id = some r ∧ a.start_time = st ∧ a.status ≠ Status.Cancelled)

/-- FOREIGN KEY check: the referenced patient row exists. -/
def patientExists (db : DB) (pid : Nat) : Bool :=
  db.patients.any fun p => p.patient_id == pid

/-- FOREIGN KEY check: the referenced doctor row exists. -/
def doctorExists (db : DB) (did : Nat) : Bool :=
  db.doctors.any fun d => d.doctor_id == did

/-- FOREIGN KEY check for the nullable room reference: NULL always passes. -/
def roomExistsOk (db : DB) (rid : Option Nat) : Bool :=
  match rid with
  | none => true
  | some r => db.rooms.any fun x => x.room_id == r

/-- Errors raised while inserting into Appointments: the two trigger ABORTs and
a foreign-key violation, all surfaced as sqlite3.IntegrityError. -/
inductive BookError where
  | doctorConflictErr
  | roomConflictErr
  | fkViolation
deriving DecidableEq

/-- The message carried by each insertion failure (RAISE(ABORT, ...) text for
the triggers, SQLite's standard text for a foreign-key failure). -/
def bookErrorMessage : BookError → String
  | BookError.doctorConflictErr => "Doctor already booked at this time"
  | BookError.roomConflictErr => "Room already booked at this time"
  | BookError.fkViolation => "FOREIGN KEY constraint failed"

/-- Details string built by trigger `trg_appointments_insert_log`. -/
def auditDetails (aid pid did : Nat) (st : String) : String :=
  "appointment_id=" ++ toString aid ++ ", patient_id=" ++ toString pid ++
    ", doctor_id=" ++ toString did ++ ", start_time=" ++ st

/-- `book_appointment` (hospital_app.py): INSERT INTO Appointments.  The BEFORE
triggers run first (in creation order: doctor, then room); the row insert then
enforces the foreign keys; on success the AFTER trigger appends one AuditLog
row and the new appointment_id (cur.lastrowid) is returned.  A failure aborts
the whole statement, so the state is returned unchanged. -/
def bookAppointment (db : DB) (pid did : Nat) (st : String) (et : Option String)
    (rid : Option Nat) (notes : String) : DB × Except BookError Nat :=
  if doctorConflict db did st then (db, Except.error BookError.doctorConflictErr)
  else if roomConflict db rid st then (db, Except.error BookError.roomConflictErr)
  else if patientExists db pid && doctorExists db did && roomExistsOk db rid then
    ({ db with
        appointments := db.appointments ++
          [⟨db.apptSeq + 1, pid, did, rid, st, et, notes, Status.Booked⟩],
        audit := db.audit ++
          [⟨db.logSeq + 1, "Appointments", "INSERT", auditDetails (db.apptSeq + 1) pid did st⟩],
        apptSeq := db.apptSeq + 1,
        logSeq := db.logSeq + 1 }, Except.ok (db.apptSeq + 1))
  else (db, Except.error BookError.fkViolation)

/-- Python `str.strip()` as used by the web routes: remove leading and trailing
whitespace (structural recursion over the character list, so that concrete
states evaluate). -/
def strip (s : String) : String :=
  ⟨(((s.data.dropWhile Char.isWhitespace).reverse).dropWhile Char.isWhitespace).reverse⟩

/-- CHECK constraint on Patients.gender: the inserted TEXT value must be one of
the three listed strings (the web form always supplies TEXT, never NULL, so an
empty string fails the check). -/
def validGender (g : String) : Bool :=
  decide (g = "Male" ∨ g = "Female" ∨ g = "Other")

/-- UNIQUE constraint on Patients.email against a proposed TEXT value: a
conflict exists when some row already holds exactly that string. -/
def emailTaken (db : DB) (em : String) : Bool :=
  db.patients.any fun p => p.email == some em

/-- Failure modes of the patient-creation route: the boundary rejection of an
empty name, and the two IntegrityError causes (gender CHECK, email UNIQUE). -/
inductive PatientError where
  | emptyName
  | genderCheckFailed
  | emailUniqueFailed
deriving DecidableEq

/-- `patient_new` (app.py): strips all five form fields, rejects an empty full
name at the boundary, then INSERTs; the DDL CHECK on gender and the UNIQUE
index on email can still reject the row.  On success the new patient_id is the
next AUTOINCREMENT value. -/
def patient_new (db : DB) (full_name dob gender phone email : String) :
    DB × Except PatientError Nat :=
  if (strip full_name) = "" then (db, Except.error PatientError.emptyName)
  else if validGender (strip gender) then
    if emailTaken db (strip email) then (db, Except.error PatientError.emailUniqueFailed)
    else
      ({ db with
          patients := db.patients ++
            [⟨db.patientSeq + 1, (strip full_name), some (strip dob), some (strip gender),
              some (strip phone), some (strip email)⟩],
          patientSeq := db.patientSeq + 1 }, Except.ok (db.patientSeq + 1))
  else (db, Except.error PatientError.genderCheckFailed)

/-- Failure mode of the doctor-creation route: missing name or specialization. -/
inductive DoctorError where
  | missingField
deriving DecidableEq

/-- `doctor_new` (app.py): strips both fields, rejects if either is empty,
otherwise INSERTs (the Doctors table has no further constraints). -/
def doctor_new (db : DB) (full_name specialization : String) :
    DB × Except DoctorError Nat :=
  if (strip full_name) = "" ∨ (strip specialization) = "" then
    (db, Except.error DoctorError.missingField)
  else
    ({ db with
        doctors := db.doctors ++ [⟨db.doctorSeq + 1, (strip full_name), (strip specialization)⟩],
        doctorSeq := db.doctorSeq + 1 }, Except.ok (db.doctorSeq + 1))

/-- Failure mode of a room insert: the UNIQUE constraint on room_number. -/
inductive RoomError where
  | duplicateNumber
deriving DecidableEq

/-- Modelled from the spec: no web route creates Rooms (only seeding does);
`createRoom` of spec section 4.1 is a plain INSERT INTO Rooms governed by the
DDL in src (room_number UNIQUE NOT NULL, AUTOINCREMENT id). -/
def room_new (db : DB) (num ty : String) : DB × Except RoomError Nat :=
  if db.rooms.any (fun r => r.room_number == num) then
    (db, Except.error RoomError.duplicateNumber)
  else
    ({ db with
        rooms := db.rooms ++ [⟨db.roomSeq + 1, num, ty⟩],
        roomSeq := db.roomSeq + 1 }, Except.ok (db.roomSeq + 1))

/-- `patient_delete` (app.py): DELETE FROM Patients WHERE patient_id = ?; the
`ON DELETE CASCADE` action on Appointments.patient_id removes the dependent
appointments in the same statement. -/
def patient_delete (db : DB) (pid : Nat) : DB :=
  { db with
      patients := db.patients.filter fun p => !(p.patient_id == pid),
      appointments := db.appointments.filter fun a => !(a.patient_id == pid) }

/-- `doctor_delete` (app.py): DELETE FROM Doctors WHERE doctor_id = ?; the
`ON DELETE CASCADE` action on Appointments.doctor_id removes the dependent
appointments in the same statement. -/
def doctor_delete (db : DB) (did : Nat) : DB :=
  { db with
      doctors := db.doctors.filter fun d => !(d.doctor_id == did),
      appointments := db.appointments.filter fun a => !(a.doctor_id == did) }

/-- The `ON DELETE SET NULL` action applied to one appointment row when room
`rid` is deleted. -/
def nullifyRoom (rid : Nat) (a : Appointment) : Appointment :=
  if a.room_id = some rid then { a with room_id := none } else a

/-- Modelled from the spec: no web route deletes Rooms; `deleteRoom` of spec
section 4.1 is DELETE FROM Rooms WHERE room_id = ?, whose `ON DELETE SET NULL`
action (Appointments DDL in src) nulls room_id on referencing appointments in
the same statement. -/
def room_delete (db : DB) (rid : Nat) : DB :=
  { db with
      rooms := db.rooms.filter fun r => !(r.room_id == rid),
      appointments := db.appointments.map (nullifyRoom rid) }

/-- Seed row (1,'Alice Johnson',...) of SEED_SQL. -/
def seedP1 : Patient :=
  ⟨1, "Alice Johnson", some "1995-04-10", some "Female", some "0771234567",
    some "alice@example.com"⟩

/-- Seed row (2,'Bob Perera',...) of SEED_SQL. -/
def seedP2 : Patient :=
  ⟨2, "Bob Perera", some "1989-09-12", some "Male", some "0717654321",
    some "bob@example.com"⟩

/-- Seed row (1,'Dr. Nimal Fernando','Cardiology') of SEED_SQL. -/
def seedD1 : Doctor := ⟨1, "Dr. Nimal Fernando", "Cardiology"⟩

/-- Seed row (2,'Dr. Isuri Ranasinghe','Dermatology') of SEED_SQL. -/
def seedD2 : Doctor := ⟨2, "Dr. Isuri Ranasinghe", "Dermatology"⟩

/-- Seed row (1,'C101','Consultation') of SEED_SQL. -/
def seedR1 : Room := ⟨1, "C101", "Consultation"⟩

/-- Seed row (2,'C102','Consultation') of SEED_SQL. -/
def seedR2 : Room := ⟨2, "C102", "Consultation"⟩

/-- Seed row (3,'W201','Ward') of SEED_SQL. -/
def seedR3 : Room := ⟨3, "W201", "Ward"⟩

/-- The seed Patients of SEED_SQL, in statement order. -/
def seedPatients : List Patient := [seedP1, seedP2]

/-- The seed Doctors of SEED_SQL, in statement order. -/
def seedDoctors : List Doctor := [seedD1, seedD2]

/-- The seed Rooms of SEED_SQL, in statement order. -/
def seedRooms : List Room := [seedR1, seedR2, seedR3]

/-- INSERT OR IGNORE conflict test for a Patients seed row: primary-key clash
or (for a non-NULL email) a UNIQUE clash on email. -/
def patientSeedConflict (l : List Patient) (p : Patient) : Bool :=
  l.any fun q => q.patient_id == p.patient_id || (p.email.isSome && q.email == p.email)

/-- INSERT OR IGNORE conflict test for a Doctors seed row: primary-key clash. -/
def doctorSeedConflict (l : List Doctor) (d : Doctor) : Bool :=
  l.any fun q => q.doctor_id == d.doctor_id

/-- INSERT OR IGNORE conflict test for a Rooms seed row: primary-key clash or a
UNIQUE clash on room_number. -/
def roomSeedConflict (l : List Room) (r : Room) : Bool :=
  l.any fun q => q.room_id == r.room_id || q.room_number == r.room_number

/-- One row of `INSERT OR IGNORE INTO Patients(...)`: skipped on any uniqueness
conflict, otherwise inserted with its explicit id, bumping the AUTOINCREMENT
sequence to at least that id. -/
def insertPatientOrIgnore (db : DB) (p : Patient) : DB :=
  if patientSeedConflict db.patients p then db
  else { db with
          patients := db.patients ++ [p],
          patientSeq := max db.patientSeq p.patient_id }

/-- One row of `INSERT OR IGNORE INTO Doctors(...)`. -/
def insertDoctorOrIgnore (db : DB) (d : Doctor) : DB :=
  if doctorSeedConflict db.doctors d then db
  else { db with
          doctors := db.doctors ++ [d],
          doctorSeq := max db.doctorSeq d.doctor_id }

/-- One row of `INSERT OR IGNORE INTO Rooms(...)`. -/
def insertRoomOrIgnore (db : DB) (r : Room) : DB :=
  if roomSeedConflict db.rooms r then db
  else { db with
          rooms := db.rooms ++ [r],
          roomSeq := max db.roomSeq r.room_id }

/-- `init_db` (hospital_app.py): the CREATE ... IF NOT EXISTS statements are
no-ops on the model (the tables always exist); SEED_SQL then inserts the seed
Patients, Doctors and Rooms with OR IGNORE, in statement order. -/
def init_db (db : DB) : DB :=
  seedRooms.foldl insertRoomOrIgnore
    (seedDoctors.foldl insertDoctorOrIgnore
      (seedPatients.foldl insertPatientOrIgnore db))

/-- The write operations the application exposes (web routes and CLI): booking,
patient/doctor/room creation and deletion, and seeding. -/
inductive Op where
  | book (pid did : Nat) (st : String) (et : Option String) (rid : Option Nat) (notes : String)
  | newPatient (fn dob g ph em : String)
  | newDoctor (fn sp : String)
  | newRoom (num ty : String)
  | delPatient (pid : Nat)
  | delDoctor (did : Nat)
  | delRoom (rid : Nat)
  | seed

/-- State transition of one operation (a failed operation leaves the state as
it was, since the statement aborts before commit). -/
def applyOp (db : DB) : Op → DB
  | Op.book p d st et r n => (bookAppointment db p d st et r n).1
  | Op.newPatient a b c d e => (patient_new db a b c d e).1
  | Op.newDoctor a b => (doctor_new db a b).1
  | Op.newRoom a b => (room_new db a b).1
  | Op.delPatient p => patient_delete db p
  | Op.delDoctor d => doctor_delete db d
  | Op.delRoom r => room_delete db r
  | Op.seed => init_db db

/-- Run a sequence of operations from a starting state. -/
def runOps (db : DB) (ops : List Op) : DB := ops.foldl applyOp db

/-- A state is reachable when some operation sequence produces it from the
fresh database. -/
def Reachable (db : DB) : Prop := ∃ ops : List Op, db = runOps emptyDB ops

/-- Doctor-side core invariant on an appointment list: no two rows that are
both non-Cancelled share (doctor_id, start_time). -/
def NoDoctorDoubleBookL (l : List Appointment) : Prop :=
  l.Pairwise fun a b =>
    a.status ≠ Status.Cancelled → b.status ≠ Status.Cancelled →
      ¬(a.doctor_id = b.doctor_id ∧ a.start_time = b.start_time)

/-- Room-side core invariant on an appointment list: no two rows that are both
non-Cancelled and share a non-NULL room_id also share start_time. -/
def NoRoomDoubleBookL (l : List Appointment) : Prop :=
  l.Pairwise fun a b =>
    a.status ≠ Status.Cancelled → b.status ≠ Status.Cancelled →
      a.room_id ≠ none → ¬(a.room_id = b.room_id ∧ a.start_time = b.start_time)

/-- Doctor-side core invariant of the store. -/
def NoDoctorDoubleBook (db : DB) : Prop := NoDoctorDoubleBookL db.appointments

/-- Room-side core invariant of the store. -/
def NoRoomDoubleBook (db : DB) : Prop := NoRoomDoubleBookL db.appointments

/-- A small demonstration state: the seed rows plus two booked appointments
(appointment 1 in room 1, appointment 2 without a room). -/
def demoDB : DB :=
  { patients := [seedP1, seedP2], doctors := [seedD1, seedD2],
    rooms := [seedR1, seedR2, seedR3],
    appointments :=
      [⟨1, 1, 1, some 1, "2025-08-30 09:00", none, "", Status.Booked⟩,
       ⟨2, 2, 2, none, "2025-08-30 10:00", none, "", Status.Booked⟩],
    audit := [], patientSeq := 2, doctorSeq := 2, roomSeq := 3, apptSeq := 2, logSeq := 2 }

/-- The second appointment of `demoDB` (patient 2, doctor 2, no room). -/
def demoAppt2 : Appointment := ⟨2, 2, 2, none, "2025-08-30 10:00", none, "", Status.Booked⟩

/-- Operation sequence that books patient 1 twice at the same instant with two
different doctors and no rooms. -/
def doubleBookOps : List Op :=
  [Op.seed, Op.book 1 1 "2025-08-30 09:00" none none "",
   Op.book 1 2 "2025-08-30 09:00" none none ""]

/-- The reachable state just before the second of the two bookings. -/
def doubleBookMid : DB :=
  runOps emptyDB [Op.seed, Op.book 1 1 "2025-08-30 09:00" none none ""]

/-- A demonstration state whose only appointment (doctor 1, room 1, 09:00)
is Cancelled. -/
def cancelledDemoDB : DB :=
  { patients := [seedP1, seedP2], doctors := [seedD1, seedD2],
    rooms := [seedR1, seedR2, seedR3],
    appointments := [⟨1, 1, 1, some 1, "2025-08-30 09:00", none, "", Status.Cancelled⟩],
    audit := [], patientSeq := 2, doctorSeq := 2, roomSeq := 3, apptSeq := 1, logSeq := 1 }

/-- COUNT(a.appointment_id) for one doctor in the per-doctor report: the
number of that doctor's non-Cancelled appointments (the status filter sits in
the LEFT JOIN condition, so cancelled rows never join). -/
def nonCancelledCount (db : DB) (did : Nat) : Nat :=
  (db.appointments.filter fun a =>
    decide (a.doctor_id = did ∧ a.status ≠ Status.Cancelled)).length

/-- ORDER BY total_appointments DESC, doctor ASC, as a boolean comparator on
(doctor_name, count) rows. -/
def reportRowLE (x y : String × Nat) : Bool :=
  decide (y.2 < x.2) || (decide (x.2 = y.2) && decide (x.1 ≤ y.1))

/-- `report_appointments_per_doctor` (hospital_app.py): one (full_name, count)
row per Doctors row (GROUP BY its primary key), counting the non-Cancelled
appointments joined to it — zero when none join — ordered by count descending
with ties by doctor name ascending. -/
def report_appointments_per_doctor (db : DB) : List (String × Nat) :=
  (db.doctors.map fun d => (d.full_name, nonCancelledCount db d.doctor_id)).mergeSort
    reportRowLE

/-- Number of AuditLog rows recording an INSERT on Appointments. -/
def countAppointmentInsertLogs (db : DB) : Nat :=
  (db.audit.filter fun e => decide (e.entity = "Appointments" ∧ e.action = "INSERT")).length

/-- Number of bookings in an operation trace that succeed, evaluated in the
state each one actually runs in. -/
def successfulBookCount : DB → List Op → Nat
  | _, [] => 0
  | db, op :: rest =>
    (match op with
     | Op.book p d st et r n =>
       match (bookAppointment db p d st et r n).2 with
       | Except.ok _ => 1
       | Except.error _ => 0
     | _ => 0) + successfulBookCount (applyOp db op) rest

/-- A trace mixing successful bookings, a rejected booking (doctor 1 is taken
at 09:00) and non-booking operations. -/
def auditDemoOps : List Op :=
  [Op.seed, Op.book 1 1 "2025-08-30 09:00" none (some 1) "",
   Op.book 2 2 "2025-08-30 09:00" none none "",
   Op.book 2 1 "2025-08-30 09:00" none none "",
   Op.delPatient 1, Op.newDoctor "Dr. Saman Kumara" "Neurology"]

/-- A trace exercising seeding, two bookings with rooms, and a cascade
delete, used to instantiate the reachability invariant. -/
def invDemoOps : List Op :=
  [Op.seed, Op.book 1 1 "2025-08-30 09:00" none (some 1) "",
   Op.book 2 2 "2025-08-30 09:00" none (some 2) "", Op.delDoctor 2]

/-- C4: after deleting patient P no Appointment row has patient_id = P (and the
patient row is gone); after deleting doctor D no Appointment row has
doctor_id = D (and the doctor row is gone); in each case the post-state of the
single delete operation already shows both removals. -/
theorem c4_cascade_delete (db : DB) (pid did : Nat) :
    (∀ a ∈ (patient_delete db pid).appointments, a.patient_id ≠ pid)
  ∧ (∀ p ∈ (patient_delete db pid).patients, p.patient_id ≠ pid)
  ∧ (∀ a ∈ (doctor_delete db did).appointments, a.doctor_id ≠ did)
  ∧ (∀ d ∈ (doctor_delete db did).doctors, d.doctor_id ≠ did) := by
  refine ⟨?_, ?_, ?_, ?_⟩ <;>
  · intro x hx
    simp only [patient_delete, doctor_delete, List.mem_filter, Bool.not_eq_eq_eq_not,
      Bool.not_true, beq_eq_false_iff_ne, ne_eq] at hx
    exact hx.2

/-- C4 witness: in the demonstration state, the appointment surviving the
deletion of patient 1 indeed does not reference patient 1. -/
theorem c4_cascade_delete_witness : demoAppt2.patient_id ≠ 1 :=
  (c4_cascade_delete demoDB 1 1).1 demoAppt2 (by decide)

/-- C5: deleting room R keeps every appointment row in place (same count, same
positions); a row that referenced R has room_id set to null and nothing else
changed, and a row that did not reference R is entirely unchanged. -/
theorem c5_room_delete_frame (db : DB) (rid : Nat) :
    (room_delete db rid).appointments.length = db.appointments.length
  ∧ ∀ i (h : i < db.appointments.length) (h2 : i < (room_delete db rid).appointments.length),
      ((db.appointments.get ⟨i, h⟩).room_id = some rid →
        (room_delete db rid).appointments.get ⟨i, h2⟩ =
          { db.appointments.get ⟨i, h⟩ with room_id := none })
    ∧ ((db.appointments.get ⟨i, h⟩).room_id ≠ some rid →
        (room_delete db rid).appointments.get ⟨i, h2⟩ = db.appointments.get ⟨i, h⟩) := by
  refine ⟨by simp [room_delete], ?_⟩
  intro i h h2
  constructor <;> intro hcase <;>
    simp only [List.get_eq_getElem] at hcase <;>
    simp [room_delete, List.get_eq_getElem, List.getElem_map, nullifyRoom, hcase]

/-- C5 witness: in the demonstration state, deleting room 1 nulls the room of
the first appointment and leaves the second appointment untouched. -/
theorem c5_room_delete_frame_witness :
    (room_delete demoDB 1).appointments.get ⟨0, by decide⟩ =
      { demoDB.appointments.get ⟨0, by decide⟩ with room_id := none } :=
  ((c5_room_delete_frame demoDB 1).2 0 (by decide) (by decide)).1 (by decide)

/-- C10: no rule prevents double-booking a patient: from the seeded store,
booking patient 1 with doctor 1 and then again with doctor 2 at the very same
start_time succeeds, and the reachable result holds two non-cancelled
appointments for patient 1 at that instant. -/
theorem c10_patient_double_book :
    Reachable (runOps emptyDB doubleBookOps)
  ∧ (bookAppointment doubleBookMid 1 2 "2025-08-30 09:00" none none "").2 = Except.ok 2
  ∧ (runOps emptyDB doubleBookOps).appointments.map
      (fun a => (a.appointment_id, a.patient_id, a.doctor_id, a.start_time, a.status)) =
      [(1, 1, 1, "2025-08-30 09:00", Status.Booked),
       (2, 1, 2, "2025-08-30 09:00", Status.Booked)] :=
  ⟨⟨doubleBookOps, rfl⟩, rfl, by decide⟩

/-- C6: Cancelled appointments never count toward either conflict rule: when
the referenced patient, doctor and (optional) room exist and every existing
appointment matching the requested doctor slot — and, when a room is
requested, every appointment matching that room slot — is Cancelled, the
booking succeeds with the next appointment id. -/
theorem c6_rebook_cancelled (db : DB) (pid did : Nat) (st : String) (et : Option String)
    (rid : Option Nat) (notes : String)
    (hp : patientExists db pid = true) (hd : doctorExists db did = true)
    (hr : roomExistsOk db rid = true)
    (hdc : ∀ a ∈ db.appointments, a.doctor_id = did → a.start_time = st →
      a.status = Status.Cancelled)
    (hrc : ∀ a ∈ db.appointments, ∀ r, rid = some r → a.room_id = some r →
      a.start_time = st → a.status = Status.Cancelled) :
    (bookAppointment db pid did st et rid notes).2 = Except.ok (db.apptSeq + 1) := by
  have h1 : doctorConflict db did st = false := by
    simp only [doctorConflict, List.any_eq_false, decide_eq_true_eq]
    intro a ha hcontra
    exact hcontra.2.2 (hdc a ha hcontra.1 hcontra.2.1)
  have h2 : roomConflict db rid st = false := by
    cases hrid : rid with
    | none => rfl
    | some r =>
      simp only [roomConflict, List.any_eq_false, decide_eq_true_eq]
      intro a ha hcontra
      exact hcontra.2.2 (hrc a ha r hrid hcontra.1 hcontra.2.1)
  simp [bookAppointment, h1, h2, hp, hd, hr]

/-- C6 witness: re-booking the cancelled doctor-1/room-1 09:00 slot for a
different patient succeeds. -/
theorem c6_rebook_cancelled_witness :
    (bookAppointment cancelledDemoDB 2 1 "2025-08-30 09:00" none (some 1) "").2 =
      Except.ok 2 :=
  c6_rebook_cancelled cancelledDemoDB 2 1 "2025-08-30 09:00" none (some 1) ""
    (by decide) (by decide) (by decide) (by decide) (by decide)

/-- C2: failure behaviour of booking: with no slot conflict, a missing patient
or doctor makes the insert fail with the foreign-key error (the spec's
NotFoundError); a doctor-slot conflict fails with the doctor ConstraintError
and a room-slot conflict with the room ConstraintError, whose carried messages
tell the three failure kinds apart; and any failure returns the store
unchanged — no appointment row, audit row or other state is persisted. -/
theorem c2_book_error_handling (db : DB) (pid did : Nat) (st : String) (et : Option String)
    (rid : Option Nat) (notes : String) :
    ((patientExists db pid = false ∨ doctorExists db did = false) →
      doctorConflict db did st = false → roomConflict db rid st = false →
      (bookAppointment db pid did st et rid notes).2 = Except.error BookError.fkViolation)
  ∧ (doctorConflict db did st = true →
      (bookAppointment db pid did st et rid notes).2 = Except.error BookError.doctorConflictErr)
  ∧ (doctorConflict db did st = false → roomConflict db rid st = true →
      (bookAppointment db pid did st et rid notes).2 = Except.error BookError.roomConflictErr)
  ∧ (∀ e, (bookAppointment db pid did st et rid notes).2 = Except.error e →
      (bookAppointment db pid did st et rid notes).1 = db)
  ∧ bookErrorMessage BookError.doctorConflictErr ≠ bookErrorMessage BookError.roomConflictErr
  ∧ bookErrorMessage BookError.fkViolation ≠ bookErrorMessage BookError.doctorConflictErr
  ∧ bookErrorMessage BookError.fkViolation ≠ bookErrorMessage BookError.roomConflictErr := by
  refine ⟨?_, ?_, ?_, ?_, by decide, by decide, by decide⟩
  · intro hmiss h1 h2
    rcases hmiss with hmiss | hmiss <;> simp [bookAppointment, h1, h2, hmiss]
  · intro h1
    simp [bookAppointment, h1]
  · intro h1 h2
    simp [bookAppointment, h1, h2]
  · intro e herr
    by_cases h1 : doctorConflict db did st
    · simp [bookAppointment, h1]
    · by_cases h2 : roomConflict db rid st
      · simp [bookAppointment, h1, h2]
      · by_cases h3 : patientExists db pid && doctorExists db did && roomExistsOk db rid
        · simp [bookAppointment, h1, h2, h3] at herr
        · simp [bookAppointment, h1, h2, h3]

/-- C2 witness: booking a nonexistent patient (id 99) on the seeded store is
rejected with the foreign-key failure. -/
theorem c2_book_error_handling_witness :
    (bookAppointment (init_db emptyDB) 99 1 "2025-08-30 09:00" none none "").2 =
      Except.error BookError.fkViolation :=
  (c2_book_error_handling (init_db emptyDB) 99 1 "2025-08-30 09:00" none none "").1
    (Or.inl (by decide)) (by decide) (by decide)

/-- C8 counterexample: on the freshly seeded store, creating a patient with a
blank gender and blank email — a case the claim says must succeed — fails: the
route inserts the stripped empty string (not NULL), and the empty string
violates the CHECK constraint on gender. -/
theorem c8_blank_fields_rejected :
    (patient_new (init_db emptyDB) "Charlie Soy" "" "" "" "").2 =
      Except.error PatientError.genderCheckFailed := rfl

/-- C8 amended: createPatient returns the next patient id; it fails with the
boundary ValidationError exactly when the stripped full name is empty;
otherwise it fails with a ConstraintError exactly when the stripped gender is
not one of Male/Female/Other (in particular when it is blank) or when the
stripped email — even a blank one — equals the stored email of an existing
patient; on success exactly the one new row is appended, and every failure
leaves the store unchanged. -/
theorem c8_create_patient_amended (db : DB) (fn dob g ph em : String) :
    ((strip fn) = "" →
      (patient_new db fn dob g ph em).2 = Except.error PatientError.emptyName)
  ∧ ((strip fn) ≠ "" → validGender (strip g) = false →
      (patient_new db fn dob g ph em).2 = Except.error PatientError.genderCheckFailed)
  ∧ ((strip fn) ≠ "" → validGender (strip g) = true → emailTaken db (strip em) = true →
      (patient_new db fn dob g ph em).2 = Except.error PatientError.emailUniqueFailed)
  ∧ ((strip fn) ≠ "" → validGender (strip g) = true → emailTaken db (strip em) = false →
      (patient_new db fn dob g ph em).2 = Except.ok (db.patientSeq + 1)
      ∧ (patient_new db fn dob g ph em).1.patients = db.patients ++
          [⟨db.patientSeq + 1, strip fn, some (strip dob), some (strip g),
            some (strip ph), some (strip em)⟩])
  ∧ (∀ e, (patient_new db fn dob g ph em).2 = Except.error e →
      (patient_new db fn dob g ph em).1 = db) := by
  refine ⟨?_, ?_, ?_, ?_, ?_⟩
  · intro h1
    simp [patient_new, h1]
  · intro h1 h2
    simp [patient_new, h1, h2]
  · intro h1 h2 h3
    simp [patient_new, h1, h2, h3]
  · intro h1 h2 h3
    exact ⟨by simp [patient_new, h1, h2, h3], by simp [patient_new, h1, h2, h3]⟩
  · intro e herr
    by_cases h1 : strip fn = ""
    · simp [patient_new, h1]
    · by_cases h2 : validGender (strip g)
      · by_cases h3 : emailTaken db (strip em)
        · simp [patient_new, h1, h2, h3]
        · simp [patient_new, h1, h2, h3] at herr
      · simp [patient_new, h1, h2]

/-- C8 witness: creating a patient with a recognized gender and a fresh email
on the seeded store succeeds with the next id 3. -/
theorem c8_create_patient_amended_witness :
    (patient_new (init_db emptyDB) "Dana Silva" "1990-01-01" "Other" "0770000000"
      "dana@example.com").2 = Except.ok 3 :=
  ((c8_create_patient_amended (init_db emptyDB) "Dana Silva" "1990-01-01" "Other"
      "0770000000" "dana@example.com").2.2.2.1
    (by decide) (by decide) (by decide)).1

/-- The report comparator is transitive. -/
theorem reportRowLE_trans (a b c : String × Nat) :
    reportRowLE a b → reportRowLE b c → reportRowLE a c := by
  simp only [reportRowLE, Bool.or_eq_true, Bool.and_eq_true, decide_eq_true_eq]
  rintro (h1 | ⟨h1e, h1n⟩) (h2 | ⟨h2e, h2n⟩)
  · exact Or.inl (by omega)
  · exact Or.inl (by omega)
  · exact Or.inl (by omega)
  · exact Or.inr ⟨by omega, le_trans h1n h2n⟩

/-- The report comparator is total. -/
theorem reportRowLE_total (a b : String × Nat) :
    reportRowLE a b || reportRowLE b a := by
  simp only [reportRowLE, Bool.or_eq_true, Bool.and_eq_true, decide_eq_true_eq]
  rcases Nat.lt_trichotomy a.2 b.2 with h | h | h
  · exact Or.inr (Or.inl h)
  · rcases le_total a.1 b.1 with hn | hn
    · exact Or.inl (Or.inr ⟨h, hn⟩)
    · exact Or.inr (Or.inr ⟨h.symm, hn⟩)
  · exact Or.inl (Or.inl h)

/-- C7: the per-doctor report consists of exactly one (doctor_name, count) row
for every Doctors row — doctors without non-cancelled appointments included
with count 0 — where count is the number of that doctor's non-Cancelled
appointments, and the rows are ordered by count descending with ties broken by
doctor name ascending. -/
theorem c7_report_per_doctor (db : DB) :
    (report_appointments_per_doctor db).Perm
      (db.doctors.map fun d => (d.full_name, nonCancelledCount db d.doctor_id))
  ∧ (report_appointments_per_doctor db).Pairwise
      (fun x y => y.2 < x.2 ∨ (x.2 = y.2 ∧ x.1 ≤ y.1)) := by
  constructor
  · exact List.mergeSort_perm _ _
  · have h := List.sorted_mergeSort reportRowLE_trans reportRowLE_total
      (db.doctors.map fun d => (d.full_name, nonCancelledCount db d.doctor_id))
    refine h.imp ?_
    intro x y hxy
    simpa only [reportRowLE, Bool.or_eq_true, Bool.and_eq_true, decide_eq_true_eq] using hxy

/-- On booking, the audit list grows by exactly the trigger row on success and
not at all on failure. -/
theorem audit_bookAppointment (db : DB) (pid did : Nat) (st : String) (et : Option String)
    (rid : Option Nat) (notes : String) :
    (bookAppointment db pid did st et rid notes).1.audit =
      db.audit ++ (match (bookAppointment db pid did st et rid notes).2 with
        | Except.ok aid =>
            [⟨db.logSeq + 1, "Appointments", "INSERT", auditDetails aid pid did st⟩]
        | Except.error _ => []) := by
  by_cases h1 : doctorConflict db did st
  · simp [bookAppointment, h1]
  · by_cases h2 : roomConflict db rid st
    · simp [bookAppointment, h1, h2]
    · by_cases h3 : patientExists db pid && doctorExists db did && roomExistsOk db rid
      · simp [bookAppointment, h1, h2, h3]
      · simp [bookAppointment, h1, h2, h3]

/-- Seed inserts never touch the AuditLog (Patients row). -/
theorem audit_insertPatientOrIgnore (db : DB) (p : Patient) :
    (insertPatientOrIgnore db p).audit = db.audit := by
  unfold insertPatientOrIgnore; split <;> rfl

/-- Seed inserts never touch the AuditLog (Doctors row). -/
theorem audit_insertDoctorOrIgnore (db : DB) (d : Doctor) :
    (insertDoctorOrIgnore db d).audit = db.audit := by
  unfold insertDoctorOrIgnore; split <;> rfl

/-- Seed inserts never touch the AuditLog (Rooms row). -/
theorem audit_insertRoomOrIgnore (db : DB) (r : Room) :
    (insertRoomOrIgnore db r).audit = db.audit := by
  unfold insertRoomOrIgnore; split <;> rfl

/-- Seeding never touches the AuditLog. -/
theorem audit_init_db (db : DB) : (init_db db).audit = db.audit := by
  simp [init_db, seedPatients, seedDoctors, seedRooms, List.foldl,
    audit_insertPatientOrIgnore, audit_insertDoctorOrIgnore, audit_insertRoomOrIgnore]

/-- No operation other than booking adds, modifies or removes AuditLog rows. -/
theorem audit_applyOp_non_book (db : DB) (op : Op)
    (h : ∀ pid did st et rid notes, op ≠ Op.book pid did st et rid notes) :
    (applyOp db op).audit = db.audit := by
  cases op with
  | book p d st et r n => exact absurd rfl (h p d st et r n)
  | newPatient a b c d e =>
    show (patient_new db a b c d e).1.audit = db.audit
    by_cases h1 : (strip a) = ""
    · simp [patient_new, h1]
    · by_cases h2 : validGender (strip c)
      · by_cases h3 : emailTaken db (strip e)
        · simp [patient_new, h1, h2, h3]
        · simp [patient_new, h1, h2, h3]
      · simp [patient_new, h1, h2]
  | newDoctor a b =>
    show (doctor_new db a b).1.audit = db.audit
    by_cases h1 : (strip a) = "" ∨ (strip b) = "" <;> simp [doctor_new, h1]
  | newRoom a b =>
    show (room_new db a b).1.audit = db.audit
    by_cases h1 : db.rooms.any (fun r => r.room_number == a) <;> simp [room_new, h1]
  | delPatient p => rfl
  | delDoctor d => rfl
  | delRoom r => rfl
  | seed => exact audit_init_db db

/-- One operation changes the Appointments-INSERT audit count by exactly the
number of bookings (0 or 1) that succeeded in it. -/
theorem count_applyOp (db : DB) (op : Op) :
    countAppointmentInsertLogs (applyOp db op) =
      countAppointmentInsertLogs db + successfulBookCount db [op] := by
  cases op with
  | book p d st et r n =>
    have h := audit_bookAppointment db p d st et r n
    simp only [applyOp, successfulBookCount, countAppointmentInsertLogs]
    rw [h]
    cases hres : (bookAppointment db p d st et r n).2 with
    | ok aid => simp [List.filter_append]
    | error e => simp [List.filter_append]
  | newPatient a b c d e =>
    simp [countAppointmentInsertLogs, successfulBookCount,
      audit_applyOp_non_book db (Op.newPatient a b c d e)
        (fun p1 d1 st1 et1 r1 n1 h => Op.noConfusion h)]
  | newDoctor a b =>
    simp [countAppointmentInsertLogs, successfulBookCount,
      audit_applyOp_non_book db (Op.newDoctor a b)
        (fun p1 d1 st1 et1 r1 n1 h => Op.noConfusion h)]
  | newRoom a b =>
    simp [countAppointmentInsertLogs, successfulBookCount,
      audit_applyOp_non_book db (Op.newRoom a b)
        (fun p1 d1 st1 et1 r1 n1 h => Op.noConfusion h)]
  | delPatient p =>
    simp [countAppointmentInsertLogs, successfulBookCount,
      audit_applyOp_non_book db (Op.delPatient p)
        (fun p1 d1 st1 et1 r1 n1 h => Op.noConfusion h)]
  | delDoctor d =>
    simp [countAppointmentInsertLogs, successfulBookCount,
      audit_applyOp_non_book db (Op.delDoctor d)
        (fun p1 d1 st1 et1 r1 n1 h => Op.noConfusion h)]
  | delRoom r =>
    simp [countAppointmentInsertLogs, successfulBookCount,
      audit_applyOp_non_book db (Op.delRoom r)
        (fun p1 d1 st1 et1 r1 n1 h => Op.noConfusion h)]
  | seed =>
    simp [countAppointmentInsertLogs, successfulBookCount,
      audit_applyOp_non_book db Op.seed (fun p1 d1 st1 et1 r1 n1 h => Op.noConfusion h)]

/-- Audit counting along a whole trace. -/
theorem count_runOps (ops : List Op) : ∀ db : DB,
    countAppointmentInsertLogs (runOps db ops) =
      countAppointmentInsertLogs db + successfulBookCount db ops := by
  induction ops with
  | nil => intro db; simp [runOps, successfulBookCount]
  | cons op rest ih =>
    intro db
    have h1 : runOps db (op :: rest) = runOps (applyOp db op) rest := rfl
    rw [h1, ih (applyOp db op), count_applyOp]
    simp only [successfulBookCount]
    omega

/-- C3: every successful booking appends exactly one AuditLog row with entity
"Appointments", action "INSERT" and the details string encoding the new
appointment id, patient id, doctor id and start time; no other operation adds,
modifies or removes AuditLog rows; hence over any operation trace the number
of Appointments-INSERT audit rows equals the number of bookings that ever
succeeded. -/
theorem c3_audit_completeness :
    (∀ db pid did st et rid notes aid,
      (bookAppointment db pid did st et rid notes).2 = Except.ok aid →
      (bookAppointment db pid did st et rid notes).1.audit = db.audit ++
        [⟨db.logSeq + 1, "Appointments", "INSERT", auditDetails aid pid did st⟩])
  ∧ (∀ db op, (∀ pid did st et rid notes, op ≠ Op.book pid did st et rid notes) →
      (applyOp db op).audit = db.audit)
  ∧ (∀ ops, countAppointmentInsertLogs (runOps emptyDB ops) =
      successfulBookCount emptyDB ops) := by
  refine ⟨?_, audit_applyOp_non_book, ?_⟩
  · intro db pid did st et rid notes aid hok
    have h := audit_bookAppointment db pid did st et rid notes
    rw [hok] at h
    exact h
  · intro ops
    have h := count_runOps ops emptyDB
    simpa [countAppointmentInsertLogs, emptyDB] using h

/-- C3 witness: the first booking on the seeded store writes exactly the one
expected audit row; a patient deletion leaves the audit untouched; and on the
demonstration trace (two successful bookings, one rejected booking, other
operations) the audit count equals the successful-booking count. -/
theorem c3_audit_completeness_witness :
    (bookAppointment (init_db emptyDB) 1 1 "2025-08-30 09:00" none none "").1.audit =
      (init_db emptyDB).audit ++
        [⟨1, "Appointments", "INSERT", auditDetails 1 1 1 "2025-08-30 09:00"⟩]
  ∧ (applyOp (init_db emptyDB) (Op.delPatient 1)).audit = (init_db emptyDB).audit
  ∧ countAppointmentInsertLogs (runOps emptyDB auditDemoOps) =
      successfulBookCount emptyDB auditDemoOps :=
  ⟨c3_audit_completeness.1 (init_db emptyDB) 1 1 "2025-08-30 09:00" none none "" 1 rfl,
   c3_audit_completeness.2.1 (init_db emptyDB) (Op.delPatient 1)
     (fun _ _ _ _ _ _ h => Op.noConfusion h),
   c3_audit_completeness.2.2 auditDemoOps⟩

/-- A patient seed conflict persists when the table grows. -/
theorem patientSeedConflict_append (l l2 : List Patient) (p : Patient)
    (h : patientSeedConflict l p = true) : patientSeedConflict (l ++ l2) p = true := by
  unfold patientSeedConflict at h ⊢
  rw [List.any_append, h, Bool.true_or]

/-- A patient seed conflict persists across any further seed insert. -/
theorem patientSeedConflict_insert (db : DB) (p q : Patient)
    (h : patientSeedConflict db.patients p = true) :
    patientSeedConflict (insertPatientOrIgnore db q).patients p = true := by
  by_cases hc : patientSeedConflict db.patients q
  · simpa [insertPatientOrIgnore, hc] using h
  · simp only [insertPatientOrIgnore, hc, Bool.false_eq_true, if_false]
    exact patientSeedConflict_append db.patients [q] p h

/-- After inserting a patient seed row (or skipping it because of a conflict),
that row conflicts with the table. -/
theorem patientSeedConflict_self (db : DB) (p : Patient) :
    patientSeedConflict (insertPatientOrIgnore db p).patients p = true := by
  by_cases hc : patientSeedConflict db.patients p
  · simp [insertPatientOrIgnore, hc]
  · unfold insertPatientOrIgnore
    rw [if_neg hc]
    show patientSeedConflict (db.patients ++ [p]) p = true
    unfold patientSeedConflict
    rw [List.any_append]
    simp

/-- A doctor seed conflict persists when the table grows. -/
theorem doctorSeedConflict_append (l l2 : List Doctor) (d : Doctor)
    (h : doctorSeedConflict l d = true) : doctorSeedConflict (l ++ l2) d = true := by
  unfold doctorSeedConflict at h ⊢
  rw [List.any_append, h, Bool.true_or]

/-- A doctor seed conflict persists across any further seed insert. -/
theorem doctorSeedConflict_insert (db : DB) (d q : Doctor)
    (h : doctorSeedConflict db.doctors d = true) :
    doctorSeedConflict (insertDoctorOrIgnore db q).doctors d = true := by
  by_cases hc : doctorSeedConflict db.doctors q
  · simpa [insertDoctorOrIgnore, hc] using h
  · simp only [insertDoctorOrIgnore, hc, Bool.false_eq_true, if_false]
    exact doctorSeedConflict_append db.doctors [q] d h

/-- After inserting a doctor seed row (or skipping it), it conflicts. -/
theorem doctorSeedConflict_self (db : DB) (d : Doctor) :
    doctorSeedConflict (insertDoctorOrIgnore db d).doctors d = true := by
  by_cases hc : doctorSeedConflict db.doctors d
  · simp [insertDoctorOrIgnore, hc]
  · unfold insertDoctorOrIgnore
    rw [if_neg hc]
    show doctorSeedConflict (db.doctors ++ [d]) d = true
    unfold doctorSeedConflict
    rw [List.any_append]
    simp

/-- A room seed conflict persists when the table grows. -/
theorem roomSeedConflict_append (l l2 : List Room) (r : Room)
    (h : roomSeedConflict l r = true) : roomSeedConflict (l ++ l2) r = true := by
  unfold roomSeedConflict at h ⊢
  rw [List.any_append, h, Bool.true_or]

/-- A room seed conflict persists across any further seed insert. -/
theorem roomSeedConflict_insert (db : DB) (r q : Room)
    (h : roomSeedConflict db.rooms r = true) :
    roomSeedConflict (insertRoomOrIgnore db q).rooms r = true := by
  by_cases hc : roomSeedConflict db.rooms q
  · simpa [insertRoomOrIgnore, hc] using h
  · simp only [insertRoomOrIgnore, hc, Bool.false_eq_true, if_false]
    exact roomSeedConflict_append db.rooms [q] r h

/-- After inserting a room seed row (or skipping it), it conflicts. -/
theorem roomSeedConflict_self (db : DB) (r : Room) :
    roomSeedConflict (insertRoomOrIgnore db r).rooms r = true := by
  by_cases hc : roomSeedConflict db.rooms r
  · simp [insertRoomOrIgnore, hc]
  · unfold insertRoomOrIgnore
    rw [if_neg hc]
    show roomSeedConflict (db.rooms ++ [r]) r = true
    unfold roomSeedConflict
    rw [List.any_append]
    simp

/-- Doctor seed inserts do not touch the Patients table. -/
theorem patients_insertDoctorOrIgnore (db : DB) (d : Doctor) :
    (insertDoctorOrIgnore db d).patients = db.patients := by
  unfold insertDoctorOrIgnore; split <;> rfl

/-- Room seed inserts do not touch the Patients table. -/
theorem patients_insertRoomOrIgnore (db : DB) (r : Room) :
    (insertRoomOrIgnore db r).patients = db.patients := by
  unfold insertRoomOrIgnore; split <;> rfl

/-- Room seed inserts do not touch the Doctors table. -/
theorem doctors_insertRoomOrIgnore (db : DB) (r : Room) :
    (insertRoomOrIgnore db r).doctors = db.doctors := by
  unfold insertRoomOrIgnore; split <;> rfl

/-- The Patients table after seeding is the patient part of the fold. -/
theorem init_db_patients (db : DB) :
    (init_db db).patients =
      (insertPatientOrIgnore (insertPatientOrIgnore db seedP1) seedP2).patients := by
  simp [init_db, seedPatients, seedDoctors, seedRooms, List.foldl,
    patients_insertDoctorOrIgnore, patients_insertRoomOrIgnore]

/-- The Doctors table after seeding is the doctor part of the fold. -/
theorem init_db_doctors (db : DB) :
    (init_db db).doctors =
      (insertDoctorOrIgnore (insertDoctorOrIgnore
        (seedPatients.foldl insertPatientOrIgnore db) seedD1) seedD2).doctors := by
  simp [init_db, seedDoctors, seedRooms, List.foldl, doctors_insertRoomOrIgnore]

/-- The Rooms table after seeding is the room part of the fold. -/
theorem init_db_rooms (db : DB) :
    (init_db db).rooms =
      (insertRoomOrIgnore (insertRoomOrIgnore (insertRoomOrIgnore
        (seedDoctors.foldl insertDoctorOrIgnore
          (seedPatients.foldl insertPatientOrIgnore db)) seedR1) seedR2) seedR3).rooms := by
  simp [init_db, seedRooms, List.foldl]

/-- After seeding, the first patient seed row conflicts with the table. -/
theorem conflict_seedP1 (db : DB) :
    patientSeedConflict (init_db db).patients seedP1 = true := by
  rw [init_db_patients]
  exact patientSeedConflict_insert _ seedP1 seedP2 (patientSeedConflict_self db seedP1)

/-- After seeding, the second patient seed row conflicts with the table. -/
theorem conflict_seedP2 (db : DB) :
    patientSeedConflict (init_db db).patients seedP2 = true := by
  rw [init_db_patients]
  exact patientSeedConflict_self _ seedP2

/-- After seeding, the first doctor seed row conflicts with the table. -/
theorem conflict_seedD1 (db : DB) :
    doctorSeedConflict (init_db db).doctors seedD1 = true := by
  rw [init_db_doctors]
  exact doctorSeedConflict_insert _ seedD1 seedD2 (doctorSeedConflict_self _ seedD1)

/-- After seeding, the second doctor seed row conflicts with the table. -/
theorem conflict_seedD2 (db : DB) :
    doctorSeedConflict (init_db db).doctors seedD2 = true := by
  rw [init_db_doctors]
  exact doctorSeedConflict_self _ seedD2

/-- After seeding, the first room seed row conflicts with the table. -/
theorem conflict_seedR1 (db : DB) :
    roomSeedConflict (init_db db).rooms seedR1 = true := by
  rw [init_db_rooms]
  exact roomSeedConflict_insert _ seedR1 seedR3
    (roomSeedConflict_insert _ seedR1 seedR2 (roomSeedConflict_self _ seedR1))

/-- After seeding, the second room seed row conflicts with the table. -/
theorem conflict_seedR2 (db : DB) :
    roomSeedConflict (init_db db).rooms seedR2 = true := by
  rw [init_db_rooms]
  exact roomSeedConflict_insert _ seedR2 seedR3 (roomSeedConflict_self _ seedR2)

/-- After seeding, the third room seed row conflicts with the table. -/
theorem conflict_seedR3 (db : DB) :
    roomSeedConflict (init_db db).rooms seedR3 = true := by
  rw [init_db_rooms]
  exact roomSeedConflict_self _ seedR3

/-- When every seed row already conflicts, seeding is the identity. -/
theorem init_db_of_conflicts (db : DB)
    (hP1 : patientSeedConflict db.patients seedP1 = true)
    (hP2 : patientSeedConflict db.patients seedP2 = true)
    (hD1 : doctorSeedConflict db.doctors seedD1 = true)
    (hD2 : doctorSeedConflict db.doctors seedD2 = true)
    (hR1 : roomSeedConflict db.rooms seedR1 = true)
    (hR2 : roomSeedConflict db.rooms seedR2 = true)
    (hR3 : roomSeedConflict db.rooms seedR3 = true) :
    init_db db = db := by
  simp only [init_db, seedPatients, seedDoctors, seedRooms, List.foldl]
  rw [show insertPatientOrIgnore db seedP1 = db from by simp [insertPatientOrIgnore, hP1]]
  rw [show insertPatientOrIgnore db seedP2 = db from by simp [insertPatientOrIgnore, hP2]]
  rw [show insertDoctorOrIgnore db seedD1 = db from by simp [insertDoctorOrIgnore, hD1]]
  rw [show insertDoctorOrIgnore db seedD2 = db from by simp [insertDoctorOrIgnore, hD2]]
  rw [show insertRoomOrIgnore db seedR1 = db from by simp [insertRoomOrIgnore, hR1]]
  rw [show insertRoomOrIgnore db seedR2 = db from by simp [insertRoomOrIgnore, hR2]]
  rw [show insertRoomOrIgnore db seedR3 = db from by simp [insertRoomOrIgnore, hR3]]

/-- C9: re-running init_db on any already-initialized store is a no-op — the
OR IGNORE seed inserts all hit existing rows, so nothing errors, nothing is
duplicated and every table (indeed the whole state, hence all row counts) is
unchanged; and the first initialization seeds exactly two Patients, two
Doctors and three Rooms. -/
theorem c9_init_db_idempotent (db : DB) :
    init_db (init_db db) = init_db db
  ∧ (init_db emptyDB).patients.length = 2
  ∧ (init_db emptyDB).doctors.length = 2
  ∧ (init_db emptyDB).rooms.length = 3 := by
  refine ⟨?_, by decide, by decide, by decide⟩
  exact init_db_of_conflicts (init_db db)
    (conflict_seedP1 db) (conflict_seedP2 db)
    (conflict_seedD1 db) (conflict_seedD2 db)
    (conflict_seedR1 db) (conflict_seedR2 db) (conflict_seedR3 db)

/-- A false doctor-trigger condition means every matching row is Cancelled. -/
theorem doctorConflict_false_iff (db : DB) (did : Nat) (st : String) :
    doctorConflict db did st = false ↔
      ∀ a ∈ db.appointments, a.doctor_id = did → a.start_time = st →
        a.status = Status.Cancelled := by
  unfold doctorConflict
  rw [List.any_eq_false]
  constructor
  · intro h a ha e1 e2
    have hx := h a ha
    simp only [decide_eq_true_eq] at hx
    by_contra hne
    exact hx ⟨e1, e2, hne⟩
  · intro h a ha
    simp only [decide_eq_true_eq]
    rintro ⟨e1, e2, e3⟩
    exact e3 (h a ha e1 e2)

/-- A false room-trigger condition on a non-NULL room means every matching
row is Cancelled. -/
theorem roomConflict_false_iff (db : DB) (r : Nat) (st : String) :
    roomConflict db (some r) st = false ↔
      ∀ a ∈ db.appointments, a.room_id = some r → a.start_time = st →
        a.status = Status.Cancelled := by
  unfold roomConflict
  rw [List.any_eq_false]
  constructor
  · intro h a ha e1 e2
    have hx := h a ha
    simp only [decide_eq_true_eq] at hx
    by_contra hne
    exact hx ⟨e1, e2, hne⟩
  · intro h a ha
    simp only [decide_eq_true_eq]
    rintro ⟨e1, e2, e3⟩
    exact e3 (h a ha e1 e2)

/-- Seed inserts never touch the Appointments table (Patients row). -/
theorem appointments_insertPatientOrIgnore (db : DB) (p : Patient) :
    (insertPatientOrIgnore db p).appointments = db.appointments := by
  unfold insertPatientOrIgnore; split <;> rfl

/-- Seed inserts never touch the Appointments table (Doctors row). -/
theorem appointments_insertDoctorOrIgnore (db : DB) (d : Doctor) :
    (insertDoctorOrIgnore db d).appointments = db.appointments := by
  unfold insertDoctorOrIgnore; split <;> rfl

/-- Seed inserts never touch the Appointments table (Rooms row). -/
theorem appointments_insertRoomOrIgnore (db : DB) (r : Room) :
    (insertRoomOrIgnore db r).appointments = db.appointments := by
  unfold insertRoomOrIgnore; split <;> rfl

/-- Seeding never touches the Appointments table. -/
theorem appointments_init_db (db : DB) : (init_db db).appointments = db.appointments := by
  simp [init_db, seedPatients, seedDoctors, seedRooms, List.foldl,
    appointments_insertPatientOrIgnore, appointments_insertDoctorOrIgnore,
    appointments_insertRoomOrIgnore]

/-- Patient creation never touches the Appointments table. -/
theorem appointments_patient_new (db : DB) (a b c d e : String) :
    (patient_new db a b c d e).1.appointments = db.appointments := by
  by_cases h1 : (strip a) = ""
  · simp [patient_new, h1]
  · by_cases h2 : validGender (strip c)
    · by_cases h3 : emailTaken db (strip e)
      · simp [patient_new, h1, h2, h3]
      · simp [patient_new, h1, h2, h3]
    · simp [patient_new, h1, h2]

/-- Doctor creation never touches the Appointments table. -/
theorem appointments_doctor_new (db : DB) (a b : String) :
    (doctor_new db a b).1.appointments = db.appointments := by
  by_cases h1 : (strip a) = "" ∨ (strip b) = "" <;> simp [doctor_new, h1]

/-- Room creation never touches the Appointments table. -/
theorem appointments_room_new (db : DB) (a b : String) :
    (room_new db a b).1.appointments = db.appointments := by
  by_cases h1 : db.rooms.any (fun r => r.room_number == a) <;> simp [room_new, h1]

/-- `nullifyRoom` keeps the doctor reference. -/
theorem nullifyRoom_doctor_id (rid : Nat) (a : Appointment) :
    (nullifyRoom rid a).doctor_id = a.doctor_id := by
  unfold nullifyRoom; split <;> rfl

/-- `nullifyRoom` keeps the start time. -/
theorem nullifyRoom_start_time (rid : Nat) (a : Appointment) :
    (nullifyRoom rid a).start_time = a.start_time := by
  unfold nullifyRoom; split <;> rfl

/-- `nullifyRoom` keeps the status. -/
theorem nullifyRoom_status (rid : Nat) (a : Appointment) :
    (nullifyRoom rid a).status = a.status := by
  unfold nullifyRoom; split <;> rfl

/-- The room reference after `nullifyRoom`. -/
theorem nullifyRoom_room_id (rid : Nat) (a : Appointment) :
    (nullifyRoom rid a).room_id = if a.room_id = some rid then none else a.room_id := by
  unfold nullifyRoom; split <;> simp_all

/-- One operation preserves both core invariants. -/
theorem inv_applyOp (db : DB) (op : Op)
    (h1 : NoDoctorDoubleBook db) (h2 : NoRoomDoubleBook db) :
    NoDoctorDoubleBook (applyOp db op) ∧ NoRoomDoubleBook (applyOp db op) := by
  simp only [NoDoctorDoubleBook, NoRoomDoubleBook, NoDoctorDoubleBookL,
    NoRoomDoubleBookL] at h1 h2 ⊢
  cases op with
  | book p d st et r n =>
    show ((bookAppointment db p d st et r n).1.appointments.Pairwise _) ∧
      ((bookAppointment db p d st et r n).1.appointments.Pairwise _)
    by_cases hc1 : doctorConflict db d st
    · simp only [bookAppointment, hc1, if_true]
      exact ⟨h1, h2⟩
    · by_cases hc2 : roomConflict db r st
      · simp only [bookAppointment, hc1, Bool.false_eq_true, if_false, hc2, if_true]
        exact ⟨h1, h2⟩
      · by_cases hc3 : patientExists db p && doctorExists db d && roomExistsOk db r
        · have happ : (bookAppointment db p d st et r n).1.appointments =
            db.appointments ++ [⟨db.apptSeq + 1, p, d, r, st, et, n, Status.Booked⟩] := by
            simp [bookAppointment, hc1, hc2, hc3]
          rw [happ]
          have hc1f : doctorConflict db d st = false := by simpa using hc1
          have hdall := (doctorConflict_false_iff db d st).mp hc1f
          constructor
          · rw [List.pairwise_append]
            refine ⟨h1, by simp, ?_⟩
            intro a ha b hb
            simp only [List.mem_singleton] at hb
            subst hb
            intro hsa _ hcontra
            exact hsa (hdall a ha hcontra.1 hcontra.2)
          · rw [List.pairwise_append]
            refine ⟨h2, by simp, ?_⟩
            intro a ha b hb
            simp only [List.mem_singleton] at hb
            subst hb
            intro hsa _ hner hcontra
            cases hr : r with
            | none =>
              apply hner
              rw [hcontra.1, hr]
            | some rr =>
              have hc2f : roomConflict db (some rr) st = false := by
                rw [← hr]; simpa using hc2
              have hrall := (roomConflict_false_iff db rr st).mp hc2f
              have haroom : a.room_id = some rr := by rw [hcontra.1, hr]
              exact hsa (hrall a ha haroom hcontra.2)
        · simp only [bookAppointment, hc1, Bool.false_eq_true, if_false, hc2, hc3]
          exact ⟨h1, h2⟩
  | newPatient a b c d e =>
    show ((patient_new db a b c d e).1.appointments.Pairwise _) ∧
      ((patient_new db a b c d e).1.appointments.Pairwise _)
    rw [appointments_patient_new]
    exact ⟨h1, h2⟩
  | newDoctor a b =>
    show ((doctor_new db a b).1.appointments.Pairwise _) ∧
      ((doctor_new db a b).1.appointments.Pairwise _)
    rw [appointments_doctor_new]
    exact ⟨h1, h2⟩
  | newRoom a b =>
    show ((room_new db a b).1.appointments.Pairwise _) ∧
      ((room_new db a b).1.appointments.Pairwise _)
    rw [appointments_room_new]
    exact ⟨h1, h2⟩
  | delPatient p =>
    exact ⟨h1.sublist (List.filter_sublist _), h2.sublist (List.filter_sublist _)⟩
  | delDoctor d =>
    exact ⟨h1.sublist (List.filter_sublist _), h2.sublist (List.filter_sublist _)⟩
  | delRoom r =>
    show ((db.appointments.map (nullifyRoom r)).Pairwise _) ∧
      ((db.appointments.map (nullifyRoom r)).Pairwise _)
    constructor
    · rw [List.pairwise_map]
      refine h1.imp ?_
      intro a b hab
      simp only [nullifyRoom_doctor_id, nullifyRoom_start_time, nullifyRoom_status]
      exact hab
    · rw [List.pairwise_map]
      refine h2.imp ?_
      intro a b hab
      simp only [nullifyRoom_status, nullifyRoom_start_time]
      intro hsa hsb hner hcontra
      have haR : a.room_id ≠ some r ∧ (nullifyRoom r a).room_id = a.room_id := by
        by_cases hc : a.room_id = some r
        · exact absurd (by simp [nullifyRoom_room_id, hc]) hner
        · exact ⟨hc, by simp [nullifyRoom_room_id, hc]⟩
      have hbR : (nullifyRoom r b).room_id = b.room_id := by
        by_cases hc : b.room_id = some r
        · exact absurd (by rw [hcontra.1]; simp [nullifyRoom_room_id, hc]) hner
        · simp [nullifyRoom_room_id, hc]
      refine hab hsa hsb ?_ ?_
      · rw [← haR.2]; exact hner
      · exact ⟨by rw [← haR.2, ← hbR]; exact hcontra.1, hcontra.2⟩
  | seed =>
    show ((init_db db).appointments.Pairwise _) ∧ ((init_db db).appointments.Pairwise _)
    rw [appointments_init_db]
    exact ⟨h1, h2⟩

/-- A whole trace preserves both core invariants. -/
theorem inv_runOps (ops : List Op) : ∀ db : DB,
    NoDoctorDoubleBook db → NoRoomDoubleBook db →
    NoDoctorDoubleBook (runOps db ops) ∧ NoRoomDoubleBook (runOps db ops) := by
  induction ops with
  | nil => exact fun db hA hB => ⟨hA, hB⟩
  | cons op rest ih =>
    intro db hA hB
    have h := inv_applyOp db op hA hB
    exact ih (applyOp db op) h.1 h.2

/-- C1: every store state reachable through the provided operations (booking,
patient/doctor/room creation and deletion, seeding) satisfies both core
invariants: no two non-Cancelled appointments share (doctor_id, start_time),
and no two non-Cancelled appointments with non-null rooms share
(room_id, start_time). -/
theorem c1_conflict_invariant (db : DB) (h : Reachable db) :
    NoDoctorDoubleBook db ∧ NoRoomDoubleBook db := by
  obtain ⟨ops, rfl⟩ := h
  exact inv_runOps ops emptyDB List.Pairwise.nil List.Pairwise.nil

/-- C1 witness: the invariant holds at the concrete reachable state produced
by the demonstration trace. -/
theorem c1_conflict_invariant_witness :
    NoDoctorDoubleBook (runOps emptyDB invDemoOps) ∧
      NoRoomDoubleBook (runOps emptyDB invDemoOps) :=
  c1_conflict_invariant (runOps emptyDB invDemoOps) ⟨invDemoOps, rfl⟩
